import Mathlib

/-!
# OpenXcom `SavedGame` (src/Savegame/SavedGame.cpp)

A shallow embedding of the campaign aggregate `OpenXcom::SavedGame`: its
constructor, destructor, funds accessors, the monthly funding tick, the
identifier accessors and the battlegame slot, followed by the properties
established about them.

Conventions of the embedding.

* A C++ `int` is a Lean `Int` kept inside the 32-bit two's-complement range by
  `wrap32`, applied at every arithmetic operation the source performs on `int`.
* A pointer is an address (`Ptr`); `0` is the null pointer.
* `std::map<std::string, T*>` is the list of its (key, value) entries in
  iteration order, `std::vector<T*>` the list of its elements.
* The collaborator classes (`Country`, `Base`, `GameTime`, `RNG`) live in other
  translation units; what the aggregate asks of them is supplied by `Entities`
  and `Store`.
-/

set_option linter.dupNamespace false

namespace OpenXcom

/-! ## Machine integers and pointers -/

/-- Object address; `0` is the null pointer. -/
abbrev Ptr := Nat

/-- The null pointer. -/
def nullPtr : Ptr := 0

/-- Smallest value of a 32-bit `int`. -/
def INT_MIN : Int := -2147483648

/-- Largest value of a 32-bit `int`. -/
def INT_MAX : Int := 2147483647

/-- Reduction of an exact integer to the 32-bit two's-complement `int` that
represents it (wrap-around modulo `2^32`). -/
def wrap32 (x : Int) : Int := (x + 2147483648) % 4294967296 - 2147483648

/-- Whether an exact integer is representable as a 32-bit `int`. -/
def isInt32 (x : Int) : Prop := INT_MIN ≤ x ∧ x ≤ INT_MAX

instance (x : Int) : Decidable (isInt32 x) :=
  inferInstanceAs (Decidable (INT_MIN ≤ x ∧ x ≤ INT_MAX))

/-! ## Collaborators declared outside SavedGame.cpp -/

/-- Modelled from the spec: the enumeration `GameDifficulty` is declared in
SavedGame.h, which is not part of the sources; a difficulty is represented by
the ordinal of its enumerator. -/
abbrev GameDifficulty := Nat

/-- Modelled from the spec: the class `GameTime` is declared in GameTime.h,
which is not part of the sources; a clock value is represented by the seven
arguments its constructor receives, in order (day, month, era, year, hour,
minute, second in the words of the specification). -/
structure GameTime where
  day : Int
  month : Int
  era : Int
  year : Int
  hour : Int
  minute : Int
  second : Int
  deriving DecidableEq

/-- Modelled from the spec: the two queries the aggregate makes on the entity
records it owns, `Country::getFunding()` and `Base::getMonthlyMaintenace()`,
whose classes are declared in Country.h and Base.h; each query is given as the
`int` it returns for the object at an address. -/
structure Entities where
  getFunding : Ptr → Int
  getMonthlyMaintenace : Ptr → Int

/-- The part of the process state outside the aggregate that the constructor
touches: the `GameTime` objects on the free store and whether `RNG::init()`
has run. -/
structure Store where
  gameTimes : Ptr → Option GameTime
  rngInit : Bool

/-! ## The aggregate -/

/-- The data members of `SavedGame`, in the order of the constructor's
initializer list, followed by `_time` and `_battlegame`. -/
structure SavedGame where
  _diff : GameDifficulty
  _funds : Int
  _countries : List (String × Ptr)
  _regions : List (String × Ptr)
  _bases : List Ptr
  _ufos : List Ptr
  _craftId : List (String × Int)
  _waypoints : List Ptr
  _ufoId : Int
  _waypointId : Int
  _time : Ptr
  _battlegame : Ptr
  deriving DecidableEq

/-- A pointer into the aggregate's own storage, as returned by the accessors
of type `T *const`: reading and writing through it act on the live member. -/
structure Ref (α : Type) where
  read : SavedGame → α
  write : SavedGame → α → SavedGame

/-- `SavedGame::SavedGame(GameDifficulty diff)`.

`raw` is the indeterminate content of the storage of `_battlegame`, the one
member the initializer list and the body leave untouched; `fresh` is the
address `new GameTime(...)` returns. -/
def SavedGame.SavedGame (diff : GameDifficulty) (raw : Ptr) (fresh : Ptr) (st : Store) :
    OpenXcom.SavedGame × Store :=
  ({ _diff := diff, _funds := 0, _countries := [], _regions := [], _bases := [],
     _ufos := [], _craftId := [], _waypoints := [], _ufoId := 1, _waypointId := 1,
     _time := fresh, _battlegame := raw },
   { gameTimes := fun p => if p = fresh then some ⟨6, 1, 1, 1999, 12, 0, 0⟩ else st.gameTimes p,
     rngInit := true })

/-- One `delete` expression executed by the destructor, tagged with the static
type of the pointer it is applied to. -/
inductive Deleted where
  | country (p : Ptr)
  | region (p : Ptr)
  | base (p : Ptr)
  | ufo (p : Ptr)
  | waypoint (p : Ptr)
  | gameTime (p : Ptr)
  deriving DecidableEq

/-- `SavedGame::~SavedGame()`: the `delete` expressions it executes, in order
(five loops, one per collection). -/
def SavedGame.dtor (s : OpenXcom.SavedGame) : List Deleted :=
  s._countries.map (fun i => Deleted.country i.2)
    ++ s._regions.map (fun i => Deleted.region i.2)
    ++ s._bases.map Deleted.base
    ++ s._ufos.map Deleted.ufo
    ++ s._waypoints.map Deleted.waypoint

/-- `int SavedGame::getFunds() const`. -/
def SavedGame.getFunds (s : OpenXcom.SavedGame) : Int := s._funds

/-- `void SavedGame::setFunds(int funds)`. -/
def SavedGame.setFunds (s : OpenXcom.SavedGame) (funds : Int) : OpenXcom.SavedGame :=
  { s with _funds := funds }

/-- `int SavedGame::getCountryFunding() const`: the loop over `_countries`
with the `int` accumulator `total`. -/
def SavedGame.getCountryFunding (w : Entities) (s : OpenXcom.SavedGame) : Int :=
  s._countries.foldl (fun total i => wrap32 (total + w.getFunding i.2)) 0

/-- `int SavedGame::getBaseMaintenance() const`: the loop over `_bases` with
the `int` accumulator `total`. -/
def SavedGame.getBaseMaintenance (w : Entities) (s : OpenXcom.SavedGame) : Int :=
  s._bases.foldl (fun total i => wrap32 (total + w.getMonthlyMaintenace i)) 0

/-- `void SavedGame::monthlyFunding()`:
`_funds += getCountryFunding() - getBaseMaintenance();`. -/
def SavedGame.monthlyFunding (w : Entities) (s : OpenXcom.SavedGame) : OpenXcom.SavedGame :=
  { s with _funds := wrap32 (s._funds + wrap32 (s.getCountryFunding w - s.getBaseMaintenance w)) }

/-- `GameTime *const SavedGame::getTime() const`. -/
def SavedGame.getTime (s : OpenXcom.SavedGame) : Ptr := s._time

/-- `std::map<std::string, Country*> *const SavedGame::getCountries()`. -/
def SavedGame.getCountries : Ref (List (String × Ptr)) :=
  ⟨fun s => s._countries, fun s v => { s with _countries := v }⟩

/-- `std::map<std::string, Region*> *const SavedGame::getRegions()`. -/
def SavedGame.getRegions : Ref (List (String × Ptr)) :=
  ⟨fun s => s._regions, fun s v => { s with _regions := v }⟩

/-- `std::vector<Base*> *const SavedGame::getBases()`. -/
def SavedGame.getBases : Ref (List Ptr) :=
  ⟨fun s => s._bases, fun s v => { s with _bases := v }⟩

/-- `std::map<std::string, int> *const SavedGame::getCraftIds()`. -/
def SavedGame.getCraftIds : Ref (List (String × Int)) :=
  ⟨fun s => s._craftId, fun s v => { s with _craftId := v }⟩

/-- `std::vector<Ufo*> *const SavedGame::getUfos()`. -/
def SavedGame.getUfos : Ref (List Ptr) :=
  ⟨fun s => s._ufos, fun s v => { s with _ufos := v }⟩

/-- `int *const SavedGame::getUfoId()`. -/
def SavedGame.getUfoId : Ref Int :=
  ⟨fun s => s._ufoId, fun s v => { s with _ufoId := v }⟩

/-- `int *const SavedGame::getWaypointId()`. -/
def SavedGame.getWaypointId : Ref Int :=
  ⟨fun s => s._waypointId, fun s v => { s with _waypointId := v }⟩

/-- `std::vector<Waypoint*> *const SavedGame::getWaypoints()`. -/
def SavedGame.getWaypoints : Ref (List Ptr) :=
  ⟨fun s => s._waypoints, fun s v => { s with _waypoints := v }⟩

/-- `void SavedGame::setBattleGame(SavedBattleGame *battlegame)`. -/
def SavedGame.setBattleGame (s : OpenXcom.SavedGame) (battlegame : Ptr) : OpenXcom.SavedGame :=
  { s with _battlegame := battlegame }

/-- `SavedBattleGame *SavedGame::getBattleGame()`. -/
def SavedGame.getBattleGame (s : OpenXcom.SavedGame) : Ptr := s._battlegame

/-! ## Calls on the aggregate, with their effect on the surrounding state -/

/-- The member functions that take and return plain values. -/
inductive Call where
  | getFunds
  | setFunds (funds : Int)
  | monthlyFunding
  | getTime
  | getCountryFunding
  | getBaseMaintenance
  | setBattleGame (battlegame : Ptr)
  | getBattleGame
  deriving DecidableEq

/-- What a call returns. -/
inductive Value where
  | void
  | int (v : Int)
  | ptr (p : Ptr)
  deriving DecidableEq

/-- One call of a member function on the aggregate: the value it returns and
the aggregate and free store it leaves. None of these member functions touches
the free store. -/
def SavedGame.call (w : Entities) (c : Call) (σ : OpenXcom.SavedGame × Store) :
    Value × (OpenXcom.SavedGame × Store) :=
  match c with
  | Call.getFunds => (Value.int σ.1.getFunds, σ)
  | Call.setFunds funds => (Value.void, (σ.1.setFunds funds, σ.2))
  | Call.monthlyFunding => (Value.void, (σ.1.monthlyFunding w, σ.2))
  | Call.getTime => (Value.ptr σ.1.getTime, σ)
  | Call.getCountryFunding => (Value.int (σ.1.getCountryFunding w), σ)
  | Call.getBaseMaintenance => (Value.int (σ.1.getBaseMaintenance w), σ)
  | Call.setBattleGame battlegame => (Value.void, (σ.1.setBattleGame battlegame, σ.2))
  | Call.getBattleGame => (Value.ptr σ.1.getBattleGame, σ)

/-- A finite sequence of calls, executed left to right. -/
def SavedGame.run (w : Entities) (cs : List Call) (σ : OpenXcom.SavedGame × Store) :
    OpenXcom.SavedGame × Store :=
  cs.foldl (fun τ c => (SavedGame.call w c τ).2) σ

/-! ## Identifier counters used through their accessors -/

/-- Reading a counter through its accessor without incrementing it
(`*getUfoId()`): the value read and the aggregate left behind. -/
def peek (r : Ref Int) (s : SavedGame) : Int × SavedGame := (r.read s, s)

/-- One consume step of the identifier contract: read the counter through the
accessor, then increment it by one through the same accessor (`++` on `int`). -/
def consume (r : Ref Int) (s : SavedGame) : Int × SavedGame :=
  (r.read s, r.write s (wrap32 (r.read s + 1)))

/-- The values returned by `n` successive consume steps, and the aggregate left
behind. -/
def consumeN (r : Ref Int) : Nat → SavedGame → List Int × SavedGame
  | 0, s => ([], s)
  | n + 1, s => ((consume r s).1 :: (consumeN r n (consume r s).2).1,
                 (consumeN r n (consume r s).2).2)

/-! ## Exact (unbounded) quantities the properties refer to -/

/-- The funding values `f1..fn` of the countries, in iteration order. -/
def countryFundings (w : Entities) (s : SavedGame) : List Int :=
  s._countries.map (fun i => w.getFunding i.2)

/-- The monthly maintenance values `m1..mk` of the bases, in order. -/
def baseMaintenances (w : Entities) (s : SavedGame) : List Int :=
  s._bases.map (fun i => w.getMonthlyMaintenace i)

/-- The exact integer `F + (f1 + ... + fn) - (m1 + ... + mk)`. -/
def exactFunds (w : Entities) (s : SavedGame) : Int :=
  s._funds + (countryFundings w s).sum - (baseMaintenances w s).sum

/-- The net delta `D = getCountryFunding - getBaseMaintenance` of one tick. -/
def netDelta (w : Entities) (s : SavedGame) : Int :=
  s.getCountryFunding w - s.getBaseMaintenance w

/-! ## Concrete states used as examples -/

/-- An empty store: no clock allocated, random numbers not seeded. -/
def emptyStore : Store := { gameTimes := fun _ => none, rngInit := false }

/-- An aggregate with every collection empty, used as a base for examples. -/
def blank : SavedGame :=
  { _diff := 0, _funds := 0, _countries := [], _regions := [], _bases := [],
    _ufos := [], _craftId := [], _waypoints := [], _ufoId := 1, _waypointId := 1,
    _time := 100, _battlegame := 0 }

/-- Entity records of the funding scenario: the countries at addresses 1 and 2
fund 120 and 80, the base at address 3 costs 50 a month. -/
def scenarioEntities : Entities :=
  { getFunding := fun p => if p = 1 then 120 else if p = 2 then 80 else 0,
    getMonthlyMaintenace := fun p => if p = 3 then 50 else 0 }

/-- The funding scenario: countries A and B, one base, funds 1000. -/
def scenarioGame : SavedGame :=
  { blank with _funds := 1000, _countries := [("A", 1), ("B", 2)], _bases := [3] }

/-- The same scenario enumerated in the opposite order. -/
def scenarioGameRev : SavedGame :=
  { blank with _funds := 1000, _countries := [("B", 2), ("A", 1)], _bases := [3] }

/-- Entity records in which every country funds 1 and every base costs 0. -/
def unitEntities : Entities :=
  { getFunding := fun _ => 1, getMonthlyMaintenace := fun _ => 0 }

/-- Entity records whose totals overflow: the country at address 1 funds
`INT_MAX` and the base at address 3 costs `INT_MAX`; every other country funds
1 and every other base costs 1. -/
def overflowEntities : Entities :=
  { getFunding := fun p => if p = 1 then 2147483647 else 1,
    getMonthlyMaintenace := fun p => if p = 3 then 2147483647 else 1 }

/-- Two countries and two bases with funds 0: with `overflowEntities` both
exact totals are `2^31` while the exact result of the tick is 0. -/
def overflowGame : SavedGame :=
  { blank with _countries := [("A", 1), ("B", 2)], _bases := [3, 4] }

/-- An aggregate holding one entity of each kind. -/
def populatedGame : SavedGame :=
  { blank with _countries := [("A", 1)], _regions := [("R", 2)], _bases := [3],
               _ufos := [4], _waypoints := [5] }

/-- An aggregate at the top of the `int` range: funds `INT_MAX`, one country. -/
def maxedGame : SavedGame :=
  { blank with _funds := 2147483647, _countries := [("A", 1)],
               _ufoId := 2147483647, _waypointId := 2147483647 }

/-! ## Arithmetic of `wrap32` -/

theorem wrap32_isInt32 (x : Int) : isInt32 (wrap32 x) := by
  unfold isInt32 wrap32 INT_MIN INT_MAX
  omega

theorem wrap32_of_isInt32 {x : Int} (h : isInt32 x) : wrap32 x = x := by
  unfold isInt32 INT_MIN INT_MAX at h
  unfold wrap32
  omega

theorem wrap32_modEq (x : Int) : wrap32 x ≡ x [ZMOD 4294967296] := by
  unfold Int.ModEq wrap32
  omega

theorem wrap32_add_left (a b : Int) : wrap32 (wrap32 a + b) = wrap32 (a + b) := by
  unfold wrap32
  omega

theorem wrap32_eq_iff_isInt32 (x : Int) : wrap32 x = x ↔ isInt32 x :=
  ⟨fun h => h ▸ wrap32_isInt32 x, wrap32_of_isInt32⟩

/-- The accumulation loop of the two totals: an `int` accumulator started at a
representable value ends at the wrapped exact sum. -/
theorem foldl_wrap32 {α : Type} (f : α → Int) (l : List α) (a : Int) (ha : isInt32 a) :
    l.foldl (fun total i => wrap32 (total + f i)) a = wrap32 (a + (l.map f).sum) := by
  induction l generalizing a with
  | nil => simp [wrap32_of_isInt32 ha]
  | cons x xs ih =>
    simp only [List.foldl_cons, List.map_cons, List.sum_cons]
    rw [ih _ (wrap32_isInt32 _), wrap32_add_left, add_assoc]

theorem isInt32_zero : isInt32 0 := by
  unfold isInt32 INT_MIN INT_MAX
  omega

theorem getCountryFunding_eq (w : Entities) (s : SavedGame) :
    s.getCountryFunding w = wrap32 (countryFundings w s).sum := by
  unfold SavedGame.getCountryFunding countryFundings
  have h := foldl_wrap32 (fun i : String × Ptr => w.getFunding i.2) s._countries 0 isInt32_zero
  rw [zero_add] at h
  exact h

theorem getBaseMaintenance_eq (w : Entities) (s : SavedGame) :
    s.getBaseMaintenance w = wrap32 (baseMaintenances w s).sum := by
  unfold SavedGame.getBaseMaintenance baseMaintenances
  have h := foldl_wrap32 (fun i : Ptr => w.getMonthlyMaintenace i) s._bases 0 isInt32_zero
  rw [zero_add] at h
  exact h

theorem monthlyFunding_funds_eq (w : Entities) (s : SavedGame) :
    (s.monthlyFunding w).getFunds = wrap32 (exactFunds w s) := by
  unfold SavedGame.monthlyFunding SavedGame.getFunds exactFunds
  simp only [getCountryFunding_eq, getBaseMaintenance_eq]
  unfold wrap32
  omega

theorem monthlyFunding_funds_delta (w : Entities) (s : SavedGame) :
    (s.monthlyFunding w).getFunds = wrap32 (s._funds + netDelta w s) := by
  unfold SavedGame.monthlyFunding SavedGame.getFunds netDelta
  simp only []
  unfold wrap32
  omega

theorem netDelta_monthlyFunding (w : Entities) (s : SavedGame) :
    netDelta w (s.monthlyFunding w) = netDelta w s := rfl

theorem netDelta_bounds (w : Entities) (s : SavedGame) :
    -4294967295 ≤ netDelta w s ∧ netDelta w s ≤ 4294967295 := by
  have h1 := wrap32_isInt32 (countryFundings w s).sum
  have h2 := wrap32_isInt32 (baseMaintenances w s).sum
  unfold isInt32 INT_MIN INT_MAX at h1 h2
  unfold netDelta
  rw [getCountryFunding_eq, getBaseMaintenance_eq]
  omega

/-! ## Monthly funding: exact value, wrap-around, iteration order -/

/-- C1 (as stated, refuted): with funds `INT_MAX` and a single country funding
1, the exact value `F + Σf - Σm` is `2^31`, which no `int` holds; the tick
leaves `-2^31` in `_funds`, so the funds are not `F + Σf - Σm`. Likewise, when
the fundings (or the maintenances) are `INT_MAX` and 1, `getCountryFunding`
(`getBaseMaintenance`) returns `-2^31`, not their sum `2^31`. -/
theorem monthlyFunding_exact_fails_at_INT_MAX :
    exactFunds unitEntities maxedGame = 2147483648
    ∧ (maxedGame.monthlyFunding unitEntities).getFunds = -2147483648
    ∧ (maxedGame.monthlyFunding unitEntities).getFunds ≠ exactFunds unitEntities maxedGame
    ∧ overflowGame.getCountryFunding overflowEntities
        ≠ (countryFundings overflowEntities overflowGame).sum
    ∧ overflowGame.getBaseMaintenance overflowEntities
        ≠ (baseMaintenances overflowEntities overflowGame).sum := by
  decide

/-- C1 (amended): whenever the exact value `F + Σf - Σm` is representable as a
32-bit `int`, `monthlyFunding` leaves funds equal to it; `getCountryFunding`
returns `Σf` whenever `Σf` is representable and `getBaseMaintenance` returns
`Σm` whenever `Σm` is representable; with fundings 120 and 80, one base with
maintenance 50 and funds 1000 the funds after one tick are 1150. -/
theorem monthlyFunding_exact_of_representable (w : Entities) (s : SavedGame) :
    (isInt32 (exactFunds w s) → (s.monthlyFunding w).getFunds = exactFunds w s)
    ∧ (isInt32 (countryFundings w s).sum →
        s.getCountryFunding w = (countryFundings w s).sum)
    ∧ (isInt32 (baseMaintenances w s).sum →
        s.getBaseMaintenance w = (baseMaintenances w s).sum)
    ∧ (s._funds = 1000 → countryFundings w s = [120, 80] → baseMaintenances w s = [50] →
        (s.monthlyFunding w).getFunds = 1150) := by
  refine ⟨fun h => ?_, fun h => ?_, fun h => ?_, fun hF hc hb => ?_⟩
  · rw [monthlyFunding_funds_eq, wrap32_of_isInt32 h]
  · rw [getCountryFunding_eq, wrap32_of_isInt32 h]
  · rw [getBaseMaintenance_eq, wrap32_of_isInt32 h]
  · have hx : exactFunds w s = 1150 := by
      unfold exactFunds
      rw [hF, hc, hb]
      decide
    rw [monthlyFunding_funds_eq, hx]
    decide

/-- C1 (witness): the scenario of the specification, countries A (120) and
B (80), one base (50), funds 1000: every total is representable and the funds
after one tick are 1150. -/
theorem monthlyFunding_exact_of_representable_witness :
    isInt32 (exactFunds scenarioEntities scenarioGame)
    ∧ (scenarioGame.monthlyFunding scenarioEntities).getFunds
        = exactFunds scenarioEntities scenarioGame
    ∧ scenarioGame.getCountryFunding scenarioEntities = 200
    ∧ scenarioGame.getBaseMaintenance scenarioEntities = 50
    ∧ (scenarioGame.monthlyFunding scenarioEntities).getFunds = 1150 :=
  ⟨by decide,
   (monthlyFunding_exact_of_representable scenarioEntities scenarioGame).1 (by decide),
   (monthlyFunding_exact_of_representable scenarioEntities scenarioGame).2.1 (by decide),
   (monthlyFunding_exact_of_representable scenarioEntities scenarioGame).2.2.1 (by decide),
   (monthlyFunding_exact_of_representable scenarioEntities scenarioGame).2.2.2 rfl rfl rfl⟩

/-- C10: with `int` as 32-bit two's complement, the funds left by
`monthlyFunding` are an `int` congruent modulo `2^32` to the exact value
`F + Σf - Σm`; they equal it whenever it lies in `[-2^31, 2^31 - 1]`, whatever
happened to the intermediate totals, and differ from it whenever it does not. -/
theorem monthlyFunding_wraps (w : Entities) (s : SavedGame) :
    (s.monthlyFunding w).getFunds ≡ exactFunds w s [ZMOD 4294967296]
    ∧ isInt32 (s.monthlyFunding w).getFunds
    ∧ (isInt32 (exactFunds w s) → (s.monthlyFunding w).getFunds = exactFunds w s)
    ∧ (¬ isInt32 (exactFunds w s) → (s.monthlyFunding w).getFunds ≠ exactFunds w s) := by
  rw [monthlyFunding_funds_eq]
  refine ⟨wrap32_modEq _, wrap32_isInt32 _, wrap32_of_isInt32, fun h e => h ?_⟩
  exact (wrap32_eq_iff_isInt32 _).mp e

/-- C10 (witness): in `overflowGame` both totals overflow (each exact sum is
`2^31` and wraps to `-2^31`) yet the exact result 0 is representable and is what
the tick stores; in `maxedGame` the exact result `2^31` is not representable
and the stored funds differ from it. -/
theorem monthlyFunding_wraps_witness :
    overflowGame.getCountryFunding overflowEntities = -2147483648
    ∧ (countryFundings overflowEntities overflowGame).sum = 2147483648
    ∧ overflowGame.getBaseMaintenance overflowEntities = -2147483648
    ∧ (baseMaintenances overflowEntities overflowGame).sum = 2147483648
    ∧ isInt32 (exactFunds overflowEntities overflowGame)
    ∧ (overflowGame.monthlyFunding overflowEntities).getFunds
        = exactFunds overflowEntities overflowGame
    ∧ ¬ isInt32 (exactFunds unitEntities maxedGame)
    ∧ (maxedGame.monthlyFunding unitEntities).getFunds ≠ exactFunds unitEntities maxedGame :=
  ⟨by decide, by decide, by decide, by decide, by decide,
   (monthlyFunding_wraps overflowEntities overflowGame).2.2.1 (by decide),
   by decide,
   (monthlyFunding_wraps unitEntities maxedGame).2.2.2 (by decide)⟩

/-- C5: the monthly tick does not depend on iteration order: two aggregates
with equal funds whose base sequences are permutations of each other and whose
country entries are permutations of each other have the same
`getCountryFunding`, the same `getBaseMaintenance` and the same funds after
`monthlyFunding`. -/
theorem monthlyFunding_perm_invariant (w : Entities) (s t : SavedGame)
    (hf : s._funds = t._funds) (hb : s._bases.Perm t._bases)
    (hc : s._countries.Perm t._countries) :
    s.getCountryFunding w = t.getCountryFunding w
    ∧ s.getBaseMaintenance w = t.getBaseMaintenance w
    ∧ (s.monthlyFunding w).getFunds = (t.monthlyFunding w).getFunds := by
  have h1 : (countryFundings w s).sum = (countryFundings w t).sum :=
    (hc.map _).sum_eq
  have h2 : (baseMaintenances w s).sum = (baseMaintenances w t).sum :=
    (hb.map _).sum_eq
  refine ⟨?_, ?_, ?_⟩
  · rw [getCountryFunding_eq, getCountryFunding_eq, h1]
  · rw [getBaseMaintenance_eq, getBaseMaintenance_eq, h2]
  · rw [monthlyFunding_funds_eq, monthlyFunding_funds_eq]
    unfold exactFunds
    rw [hf, h1, h2]

/-- C5 (witness): the funding scenario with its two countries enumerated as
A, B and as B, A. -/
theorem monthlyFunding_perm_invariant_witness :
    scenarioGame._countries ≠ scenarioGameRev._countries
    ∧ scenarioGame.getCountryFunding scenarioEntities
        = scenarioGameRev.getCountryFunding scenarioEntities
    ∧ scenarioGame.getBaseMaintenance scenarioEntities
        = scenarioGameRev.getBaseMaintenance scenarioEntities
    ∧ (scenarioGame.monthlyFunding scenarioEntities).getFunds
        = (scenarioGameRev.monthlyFunding scenarioEntities).getFunds :=
  ⟨by decide,
   monthlyFunding_perm_invariant scenarioEntities scenarioGame scenarioGameRev rfl
     (List.Perm.refl _) (List.Perm.swap _ _ _)⟩

/-- C6 (as stated, refuted): with funds `INT_MAX` and net delta 1, two calls of
`monthlyFunding` leave `-2^31 + 1`, not `F + 2*D = 2^31 + 1`. -/
theorem monthlyFunding_twice_fails_at_INT_MAX :
    netDelta unitEntities maxedGame = 1
    ∧ ((maxedGame.monthlyFunding unitEntities).monthlyFunding unitEntities).getFunds
        = -2147483647
    ∧ ((maxedGame.monthlyFunding unitEntities).monthlyFunding unitEntities).getFunds
        ≠ maxedGame._funds + 2 * netDelta unitEntities maxedGame := by
  decide

/-- C6 (amended): `monthlyFunding` is not idempotent: with funds `F` and net
delta `D = getCountryFunding - getBaseMaintenance`, two calls with no
intervening mutation leave funds `F + 2*D` whenever `F + 2*D` is representable
as a 32-bit `int` (and funds congruent to it modulo `2^32` in every case); the
second call applies the same delta `D` again, and the two-call result differs
from the one-call result exactly when `D` is non-zero. -/
theorem monthlyFunding_twice (w : Entities) (s : SavedGame) :
    (isInt32 (s._funds + 2 * netDelta w s) →
        ((s.monthlyFunding w).monthlyFunding w).getFunds = s._funds + 2 * netDelta w s)
    ∧ ((s.monthlyFunding w).monthlyFunding w).getFunds
        ≡ s._funds + 2 * netDelta w s [ZMOD 4294967296]
    ∧ netDelta w (s.monthlyFunding w) = netDelta w s
    ∧ ((s.monthlyFunding w).monthlyFunding w).getFunds
        = wrap32 ((s.monthlyFunding w).getFunds + netDelta w s)
    ∧ (((s.monthlyFunding w).monthlyFunding w).getFunds ≠ (s.monthlyFunding w).getFunds
        ↔ netDelta w s ≠ 0) := by
  have h2 : ((s.monthlyFunding w).monthlyFunding w).getFunds
      = wrap32 ((s.monthlyFunding w).getFunds + netDelta w s) := by
    rw [monthlyFunding_funds_delta (s := s.monthlyFunding w), netDelta_monthlyFunding]
    rfl
  have h1 := monthlyFunding_funds_delta w s
  have hD := netDelta_bounds w s
  refine ⟨?_, ?_, netDelta_monthlyFunding w s, h2, ?_⟩ <;> rw [h2, h1] <;>
    generalize netDelta w s = D at * <;> generalize s._funds = F at * <;>
    unfold wrap32
  · unfold isInt32 INT_MIN INT_MAX
    omega
  · unfold Int.ModEq
    omega
  · omega

/-- C6 (witness): in the funding scenario `F = 1000` and `D = 150`; two ticks
leave `1300 = F + 2*D`, one tick leaves `1150`. -/
theorem monthlyFunding_twice_witness :
    isInt32 (scenarioGame._funds + 2 * netDelta scenarioEntities scenarioGame)
    ∧ ((scenarioGame.monthlyFunding scenarioEntities).monthlyFunding scenarioEntities).getFunds
        = scenarioGame._funds + 2 * netDelta scenarioEntities scenarioGame
    ∧ ((scenarioGame.monthlyFunding scenarioEntities).monthlyFunding scenarioEntities).getFunds
        = 1300
    ∧ (scenarioGame.monthlyFunding scenarioEntities).getFunds = 1150 :=
  ⟨by decide,
   (monthlyFunding_twice scenarioEntities scenarioGame).1 (by decide),
   by decide, by decide⟩

/-! ## Construction and teardown -/

/-- C2: for every difficulty `d` the constructed aggregate has funds 0, its five
entity collections and the craft-identifier mapping empty, both identifier
counters equal to 1, stored difficulty `d`, and its clock is the `GameTime`
built from the arguments 6, 1, 1, 1999, 12, 0, 0, whatever `d` is. -/
theorem SavedGame_constructor_defaults (d : GameDifficulty) (raw fresh : Ptr) (st : Store) :
    (SavedGame.SavedGame d raw fresh st).1.getFunds = 0
    ∧ SavedGame.getCountries.read (SavedGame.SavedGame d raw fresh st).1 = []
    ∧ SavedGame.getRegions.read (SavedGame.SavedGame d raw fresh st).1 = []
    ∧ SavedGame.getBases.read (SavedGame.SavedGame d raw fresh st).1 = []
    ∧ SavedGame.getUfos.read (SavedGame.SavedGame d raw fresh st).1 = []
    ∧ SavedGame.getWaypoints.read (SavedGame.SavedGame d raw fresh st).1 = []
    ∧ SavedGame.getCraftIds.read (SavedGame.SavedGame d raw fresh st).1 = []
    ∧ SavedGame.getUfoId.read (SavedGame.SavedGame d raw fresh st).1 = 1
    ∧ SavedGame.getWaypointId.read (SavedGame.SavedGame d raw fresh st).1 = 1
    ∧ (SavedGame.SavedGame d raw fresh st).1._diff = d
    ∧ (SavedGame.SavedGame d raw fresh st).2.gameTimes
          (SavedGame.SavedGame d raw fresh st).1.getTime
        = some { day := 6, month := 1, era := 1, year := 1999,
                 hour := 12, minute := 0, second := 0 } := by
  simp [SavedGame.SavedGame, SavedGame.getFunds, SavedGame.getCountries, SavedGame.getRegions,
    SavedGame.getBases, SavedGame.getUfos, SavedGame.getWaypoints, SavedGame.getCraftIds,
    SavedGame.getUfoId, SavedGame.getWaypointId, SavedGame.getTime]

/-- C3 (the code at the failing input): the constructor never assigns
`_battlegame`, so `getBattleGame` on a freshly constructed aggregate returns
whatever the storage held before; constructed over storage holding
`0xDEADBEEF` it returns that address, which is not the null pointer. -/
theorem getBattleGame_fresh_returns_raw :
    (∀ (d : GameDifficulty) (raw fresh : Ptr) (st : Store),
        (SavedGame.SavedGame d raw fresh st).1.getBattleGame = raw)
    ∧ (SavedGame.SavedGame 0 3735928559 100 emptyStore).1.getBattleGame = 3735928559
    ∧ (SavedGame.SavedGame 0 3735928559 100 emptyStore).1.getBattleGame ≠ nullPtr := by
  refine ⟨fun _ _ _ _ => rfl, rfl, ?_⟩
  decide

theorem count_map_tag (f : Ptr → Deleted) (hf : Function.Injective f) (l : List Ptr)
    (p : Ptr) : (l.map f).count (f p) = l.count p :=
  List.count_map_of_injective l f hf p

theorem count_map_other {α : Type} (f : α → Deleted) (x : Deleted) (h : ∀ a, f a ≠ x)
    (l : List α) : (l.map f).count x = 0 := by
  rw [List.count_eq_zero]
  intro hx
  obtain ⟨a, _, ha⟩ := List.mem_map.mp hx
  exact h a ha

theorem count_map_snd_tag (f : Ptr → Deleted) (hf : Function.Injective f)
    (l : List (String × Ptr)) (p : Ptr) :
    (l.map (fun i => f i.2)).count (f p) = (l.map Prod.snd).count p := by
  rw [← count_map_tag f hf, List.map_map]
  rfl

/-- C9 (the code at the failing input): the destructor applies `delete` to each
entry of the five collections as many times as the entry occurs there (once,
when no entity appears twice) and to nothing else; in particular it never
applies `delete` to a `GameTime`, so the clock allocated by the constructor is
not released: destroying a freshly constructed aggregate releases nothing while
its clock is still on the free store, and destroying an aggregate with one
entity of each kind releases those five entities only. -/
theorem dtor_releases_entities_but_not_clock :
    (∀ (s : SavedGame) (p : Ptr),
        s.dtor.count (Deleted.country p) = (s._countries.map Prod.snd).count p
        ∧ s.dtor.count (Deleted.region p) = (s._regions.map Prod.snd).count p
        ∧ s.dtor.count (Deleted.base p) = s._bases.count p
        ∧ s.dtor.count (Deleted.ufo p) = s._ufos.count p
        ∧ s.dtor.count (Deleted.waypoint p) = s._waypoints.count p
        ∧ s.dtor.count (Deleted.gameTime p) = 0)
    ∧ (∀ (d : GameDifficulty) (raw fresh : Ptr) (st : Store),
        (SavedGame.SavedGame d raw fresh st).1.dtor = []
        ∧ ((SavedGame.SavedGame d raw fresh st).2.gameTimes
            (SavedGame.SavedGame d raw fresh st).1.getTime).isSome = true)
    ∧ populatedGame.dtor
        = [Deleted.country 1, Deleted.region 2, Deleted.base 3, Deleted.ufo 4,
           Deleted.waypoint 5]
    ∧ Deleted.gameTime populatedGame.getTime ∉ populatedGame.dtor := by
  have ic : Function.Injective Deleted.country := fun a b h => by injection h
  have ir : Function.Injective Deleted.region := fun a b h => by injection h
  have ib : Function.Injective Deleted.base := fun a b h => by injection h
  have iu : Function.Injective Deleted.ufo := fun a b h => by injection h
  have iw : Function.Injective Deleted.waypoint := fun a b h => by injection h
  refine ⟨fun s p => ?_, fun d raw fresh st => ?_, by decide, by decide⟩
  · unfold SavedGame.dtor
    simp only [List.count_append]
    refine ⟨?_, ?_, ?_, ?_, ?_, ?_⟩
    · rw [count_map_snd_tag Deleted.country ic, count_map_other, count_map_other,
        count_map_other, count_map_other] <;> simp
    · rw [count_map_snd_tag Deleted.region ir, count_map_other, count_map_other,
        count_map_other, count_map_other] <;> simp
    · rw [count_map_tag Deleted.base ib, count_map_other, count_map_other,
        count_map_other, count_map_other] <;> simp
    · rw [count_map_tag Deleted.ufo iu, count_map_other, count_map_other,
        count_map_other, count_map_other] <;> simp
    · rw [count_map_tag Deleted.waypoint iw, count_map_other, count_map_other,
        count_map_other, count_map_other] <;> simp
    · rw [count_map_other, count_map_other, count_map_other, count_map_other,
        count_map_other] <;> simp
  · simp [SavedGame.SavedGame, SavedGame.dtor, SavedGame.getTime]

/-! ## Funds accessors and the frame of the mutating calls -/

/-- C7: `setFunds` is an unconditional overwrite: for every aggregate and every
integer `v`, `getFunds` after `setFunds(v)` returns `v`; `setFunds` leaves every
member other than `_funds` and the free store as they were, and `getFunds`
changes nothing at all. -/
theorem setFunds_overwrites_only_funds (w : Entities) (σ : SavedGame × Store) (v : Int) :
    (SavedGame.call w Call.getFunds (SavedGame.call w (Call.setFunds v) σ).2).1 = Value.int v
    ∧ (σ.1.setFunds v).getFunds = v
    ∧ (SavedGame.call w (Call.setFunds v) σ).2 = ({ σ.1 with _funds := v }, σ.2)
    ∧ ((σ.1.setFunds v)._diff = σ.1._diff
        ∧ (σ.1.setFunds v)._countries = σ.1._countries
        ∧ (σ.1.setFunds v)._regions = σ.1._regions
        ∧ (σ.1.setFunds v)._bases = σ.1._bases
        ∧ (σ.1.setFunds v)._ufos = σ.1._ufos
        ∧ (σ.1.setFunds v)._craftId = σ.1._craftId
        ∧ (σ.1.setFunds v)._waypoints = σ.1._waypoints
        ∧ (σ.1.setFunds v)._ufoId = σ.1._ufoId
        ∧ (σ.1.setFunds v)._waypointId = σ.1._waypointId
        ∧ (σ.1.setFunds v)._time = σ.1._time
        ∧ (σ.1.setFunds v)._battlegame = σ.1._battlegame)
    ∧ (SavedGame.call w Call.getFunds σ).2 = σ := by
  simp [SavedGame.call, SavedGame.setFunds, SavedGame.getFunds]

theorem call_preserves (w : Entities) (c : Call) (σ : SavedGame × Store) :
    (SavedGame.call w c σ).2.1._diff = σ.1._diff
    ∧ (SavedGame.call w c σ).2.1._time = σ.1._time
    ∧ (SavedGame.call w c σ).2.2 = σ.2 := by
  cases c <;>
    simp [SavedGame.call, SavedGame.setFunds, SavedGame.monthlyFunding, SavedGame.setBattleGame]

theorem run_preserves (w : Entities) (cs : List Call) (σ : SavedGame × Store) :
    (SavedGame.run w cs σ).1._diff = σ.1._diff
    ∧ (SavedGame.run w cs σ).1._time = σ.1._time
    ∧ (SavedGame.run w cs σ).2 = σ.2 := by
  induction cs generalizing σ with
  | nil => simp [SavedGame.run]
  | cons c cs ih =>
    have h := call_preserves w c σ
    have h2 := ih (SavedGame.call w c σ).2
    simp only [SavedGame.run, List.foldl_cons] at h2 ⊢
    exact ⟨h2.1.trans h.1, h2.2.1.trans h.2.1, h2.2.2.trans h.2.2⟩

/-- C8: the aggregate never changes its own difficulty or clock: after any
finite sequence of calls (`setFunds` with any value, `monthlyFunding`,
`setBattleGame` with any pointer, and the value-returning getters) the
difficulty, the clock pointer, the free store and hence the clock object are
what they were before; on a constructed aggregate the difficulty is still the
constructor argument; and `monthlyFunding` modifies only `_funds`. -/
theorem run_preserves_difficulty_and_clock (w : Entities) (cs : List Call) :
    (∀ σ : SavedGame × Store,
        (SavedGame.run w cs σ).1._diff = σ.1._diff
        ∧ (SavedGame.run w cs σ).1.getTime = σ.1.getTime
        ∧ (SavedGame.run w cs σ).2.gameTimes (SavedGame.run w cs σ).1.getTime
            = σ.2.gameTimes σ.1.getTime)
    ∧ (∀ (d : GameDifficulty) (raw fresh : Ptr) (st : Store),
        (SavedGame.run w cs (SavedGame.SavedGame d raw fresh st)).1._diff = d)
    ∧ (∀ s : SavedGame,
        s.monthlyFunding w = { s with _funds := (s.monthlyFunding w).getFunds }) := by
  refine ⟨fun σ => ?_, fun d raw fresh st => ?_, fun s => rfl⟩
  · have h := run_preserves w cs σ
    refine ⟨h.1, h.2.1, ?_⟩
    unfold SavedGame.getTime
    rw [h.2.1, h.2.2]
  · exact (run_preserves w cs _).1

/-! ## Identifier counters -/

theorem consumeN_values (r : Ref Int) (hr : ∀ s v, r.read (r.write s v) = v)
    (n : Nat) (s : SavedGame) (hlo : INT_MIN ≤ r.read s)
    (hhi : r.read s + (n : Int) ≤ INT_MAX + 1) :
    (consumeN r n s).1 = (List.range n).map (fun i : Nat => r.read s + (i : Int)) := by
  induction n generalizing s with
  | zero => simp [consumeN]
  | succ n ih =>
    simp only [consumeN, consume, List.range_succ_eq_map, List.map_cons, List.map_map]
    congr 1
    · simp
    · cases n with
      | zero => simp [consumeN]
      | succ m =>
        have hread : r.read (r.write s (wrap32 (r.read s + 1))) = r.read s + 1 := by
          rw [hr]
          apply wrap32_of_isInt32
          unfold isInt32
          unfold INT_MIN INT_MAX at *
          push_cast at hhi
          omega
        rw [ih _ (by rw [hread]; omega) (by rw [hread]; push_cast at hhi ⊢; omega), hread]
        apply List.map_congr_left
        intro i _
        simp only [Function.comp, Nat.succ_eq_add_one]
        push_cast
        ring

theorem range_map_add_pairwise (c : Int) (n : Nat) :
    List.Pairwise (fun a b => a < b) ((List.range n).map (fun i : Nat => c + (i : Int))) := by
  refine List.Pairwise.map _ (fun a b h => ?_) (List.pairwise_lt_range n)
  omega

/-- C4 (as stated, refuted): starting from the counter value `INT_MAX`, two
consume steps through `getUfoId` return `INT_MAX` and then `-2^31`: not
`c, c + 1`, and not increasing. -/
theorem consumeN_fails_at_INT_MAX :
    SavedGame.getUfoId.read maxedGame = 2147483647
    ∧ (consumeN SavedGame.getUfoId 2 maxedGame).1 = [2147483647, -2147483648]
    ∧ (consumeN SavedGame.getUfoId 2 maxedGame).1
        ≠ (List.range 2).map (fun i : Nat => SavedGame.getUfoId.read maxedGame + (i : Int))
    ∧ ¬ List.Pairwise (fun a b => a < b) (consumeN SavedGame.getUfoId 2 maxedGame).1 := by
  decide

/-- C4 (amended): for each of the two identifier counters, for every starting
value `c` that is an `int` and every `N` with `c + N - 1 ≤ INT_MAX`, `N` consume
steps return `c, c+1, ..., c+N-1`, strictly increasing and pairwise distinct;
reading without incrementing leaves the aggregate unchanged and returns the
same value again; on a fresh aggregate the first read returns 1 and, after one
increment, the next read returns 2. -/
theorem idCounters_consume (s : SavedGame) (N : Nat) :
    (INT_MIN ≤ SavedGame.getUfoId.read s →
      SavedGame.getUfoId.read s + (N : Int) - 1 ≤ INT_MAX →
        (consumeN SavedGame.getUfoId N s).1
            = (List.range N).map (fun i : Nat => SavedGame.getUfoId.read s + (i : Int))
        ∧ List.Pairwise (fun a b => a < b) (consumeN SavedGame.getUfoId N s).1
        ∧ (consumeN SavedGame.getUfoId N s).1.Nodup)
    ∧ (INT_MIN ≤ SavedGame.getWaypointId.read s →
      SavedGame.getWaypointId.read s + (N : Int) - 1 ≤ INT_MAX →
        (consumeN SavedGame.getWaypointId N s).1
            = (List.range N).map (fun i : Nat => SavedGame.getWaypointId.read s + (i : Int))
        ∧ List.Pairwise (fun a b => a < b) (consumeN SavedGame.getWaypointId N s).1
        ∧ (consumeN SavedGame.getWaypointId N s).1.Nodup)
    ∧ ((peek SavedGame.getUfoId s).2 = s
        ∧ (peek SavedGame.getUfoId (peek SavedGame.getUfoId s).2).1
            = (peek SavedGame.getUfoId s).1
        ∧ (peek SavedGame.getWaypointId s).2 = s
        ∧ (peek SavedGame.getWaypointId (peek SavedGame.getWaypointId s).2).1
            = (peek SavedGame.getWaypointId s).1)
    ∧ (∀ (d : GameDifficulty) (raw fresh : Ptr) (st : Store),
        (consume SavedGame.getUfoId (SavedGame.SavedGame d raw fresh st).1).1 = 1
        ∧ (peek SavedGame.getUfoId
            (consume SavedGame.getUfoId (SavedGame.SavedGame d raw fresh st).1).2).1 = 2
        ∧ (consume SavedGame.getWaypointId (SavedGame.SavedGame d raw fresh st).1).1 = 1
        ∧ (peek SavedGame.getWaypointId
            (consume SavedGame.getWaypointId (SavedGame.SavedGame d raw fresh st).1).2).1
              = 2) := by
  refine ⟨fun hlo hhi => ?_, fun hlo hhi => ?_, ⟨rfl, rfl, rfl, rfl⟩, fun d raw fresh st => ?_⟩
  · have hv := consumeN_values SavedGame.getUfoId (fun _ _ => rfl) N s hlo (by omega)
    rw [hv]
    exact ⟨rfl, range_map_add_pairwise _ _,
      (range_map_add_pairwise _ _).imp (fun h => ne_of_lt h)⟩
  · have hv := consumeN_values SavedGame.getWaypointId (fun _ _ => rfl) N s hlo (by omega)
    rw [hv]
    exact ⟨rfl, range_map_add_pairwise _ _,
      (range_map_add_pairwise _ _).imp (fun h => ne_of_lt h)⟩
  · exact ⟨rfl, rfl, rfl, rfl⟩

/-- C4 (witness): on the blank aggregate, whose counters hold 1, five consume
steps through each accessor return 1, 2, 3, 4, 5. -/
theorem idCounters_consume_witness :
    (consumeN SavedGame.getUfoId 5 blank).1 = [1, 2, 3, 4, 5]
    ∧ (consumeN SavedGame.getUfoId 5 blank).1.Nodup
    ∧ (consumeN SavedGame.getWaypointId 5 blank).1 = [1, 2, 3, 4, 5]
    ∧ List.Pairwise (fun a b => a < b) (consumeN SavedGame.getWaypointId 5 blank).1 :=
  ⟨((idCounters_consume blank 5).1 (by decide) (by decide)).1.trans (by decide),
   ((idCounters_consume blank 5).1 (by decide) (by decide)).2.2,
   ((idCounters_consume blank 5).2.1 (by decide) (by decide)).1.trans (by decide),
   ((idCounters_consume blank 5).2.1 (by decide) (by decide)).2.1⟩

end OpenXcom
